import Mathlib

/-!
Shallow embedding of `src/qom/object.c` (the QEMU object model core).

Conventions of the embedding:

* C strings are `String`; a nullable `char *` is `Option String`.
* Hook function pointers (`base_init`, `class_init`, `instance_init`,
  `instance_finalize`, interface init functions) are opaque external code;
  they are modelled by identities (`Option Nat`, `none` = NULL) and invoking
  one appends an `Event` to the global log instead of running foreign code.
* The global mutable world (the type table, the anonymous-name counter,
  the allocated class objects, the allocated instances) is one `QState`
  threaded by a state-and-error monad `M`; `g_assert` failure and NULL
  pointer dereference both surface as `Except.error`.
* All recursions of the C code run on the user-supplied type graph, which
  may be cyclic, so every recursive operation takes explicit fuel and
  exhausting it is an error; theorems pick fuel large enough.
* Pointer identity of class objects and instances is modelled by numeric
  allocation ids; pointer identity of `TypeImpl` descriptors by the (unique)
  registry key, which `g_hash_table` guarantees.
-/

/-- Type names; C uses `const char *` keys hashed by content. -/
abbrev TName := String

/-- Mirrors `struct InterfaceImpl` of object.c: an interface declaration on a
type, with the back-filled anonymous synthesized type (`type`, NULL until the
class build runs `type_class_interface_init`). -/
structure InterfaceImpl where
  parent : TName
  interface_initfn : Option Nat
  type : Option TName
deriving DecidableEq, Repr

/-- Mirrors `struct TypeImpl` of object.c. The C field `class` (a pointer to
the lazily built class object) is `cls : Option Nat`, an allocation id; the
fixed array `interfaces[MAX_INTERFACES]` plus `num_interfaces` is a list
(`num_interfaces = interfaces.length`). -/
structure TypeImpl where
  name : TName
  class_size : Nat
  instance_size : Nat
  base_init : Option Nat
  base_finalize : Option Nat
  class_init : Option Nat
  class_finalize : Option Nat
  class_data : Nat
  instance_init : Option Nat
  instance_finalize : Option Nat
  abstract : Bool
  parent : Option TName
  cls : Option Nat
  interfaces : List InterfaceImpl
deriving DecidableEq, Repr

/-- One entry of the NULL-terminated `InterfaceInfo` array of a `TypeInfo`. -/
structure InterfaceInfo where
  type : TName
  interface_initfn : Option Nat
deriving DecidableEq, Repr

/-- Mirrors `TypeInfo` (the registration record from qemu/object.h as used by
object.c). Defaults are C static zero-initialization. -/
structure TypeInfo where
  name : Option TName := none
  parent : Option TName := none
  class_size : Nat := 0
  instance_size : Nat := 0
  base_init : Option Nat := none
  base_finalize : Option Nat := none
  class_init : Option Nat := none
  class_finalize : Option Nat := none
  class_data : Nat := 0
  instance_init : Option Nat := none
  instance_finalize : Option Nat := none
  abstract : Bool := false
  interfaces : Option (List InterfaceInfo) := none
deriving DecidableEq, Repr

/-- A built class object: the universal header (`type` back reference, held
here as the registry key) followed by the vtable tail, the memory slots
`[sizeof(ObjectClass), class_size)`, one `Nat` per slot. -/
structure ClassObj where
  typeName : TName
  tail : List Nat
deriving DecidableEq, Repr

/-- An allocated instance. `cls` is `obj->class` (NULL before initialization),
`interfaces` is the GSList of interface trampoline instance ids, `ifaceObj` is
the `Interface.obj` back pointer slot (meaningful for trampolines only). -/
structure Obj where
  cls : Option Nat
  interfaces : List Nat
  ifaceObj : Option Nat
deriving DecidableEq, Repr

/-- A hook invocation or interface synthesis, recorded in program order.
`base_init h c`: hook `h` ran receiving class object `c`;
`class_init h c d`: hook `h` ran with class object `c` and class_data `d`;
`instance_init h o` / `instance_finalize h o`: hook `h` ran on instance `o`;
`iface_synth t p a`: building `t`'s class synthesized anonymous type `a`
for the interface declaration whose parent is `p`. -/
inductive Event where
  | base_init : Nat → Nat → Event
  | class_init : Nat → Nat → Nat → Event
  | instance_init : Nat → Nat → Event
  | instance_finalize : Nat → Nat → Event
  | iface_synth : TName → TName → TName → Event
deriving DecidableEq, Repr

/-- Association list lookup, the model of `g_hash_table_lookup`. -/
def alookup {κ α : Type} [DecidableEq κ] : List (κ × α) → κ → Option α
  | [], _ => none
  | (k2, v) :: rest, k => if k2 = k then some v else alookup rest k

/-- Association list insert-or-replace, the model of `g_hash_table_insert`
(one entry per key; inserting an existing key replaces the value). -/
def aset {κ α : Type} [DecidableEq κ] : List (κ × α) → κ → α → List (κ × α)
  | [], k, v => [(k, v)]
  | (k2, v2) :: rest, k, v =>
      if k2 = k then (k, v) :: rest else (k2, v2) :: aset rest k v

/-- Association list removal, the model of `g_free` of an instance. -/
def aremove {κ α : Type} [DecidableEq κ] : List (κ × α) → κ → List (κ × α)
  | [], _ => []
  | (k2, v2) :: rest, k =>
      if k2 = k then rest else (k2, v2) :: aremove rest k

/-- The global mutable world of object.c. -/
structure QState where
  table : List (TName × TypeImpl)
  anonCount : Nat
  classes : List (Nat × ClassObj)
  classCount : Nat
  objs : List (Nat × Obj)
  objCount : Nat
  log : List Event
deriving DecidableEq, Repr

/-- The empty startup state (before any `device_init` registration ran). -/
def initState : QState :=
  { table := [], anonCount := 0, classes := [], classCount := 0,
    objs := [], objCount := 0, log := [] }

/-- State-and-error monad: `g_assert` failures, aborts and NULL dereferences
are `Except.error`. -/
def M (α : Type) : Type := QState → Except String (α × QState)

/-- Abort (model of a failed `g_assert`, `abort()`, or a segfault). -/
def mthrow {α : Type} (msg : String) : M α := fun _ => Except.error msg

/-- Read the global state. -/
def mget : M QState := fun st => Except.ok (st, st)

/-- Replace the global state. -/
def mset (st : QState) : M Unit := fun _ => Except.ok ((), st)

def mpure {α : Type} (a : α) : M α := fun st => Except.ok (a, st)

def mbind {α β : Type} (m : M α) (k : α → M β) : M β := fun st =>
  match m st with
  | Except.error e => Except.error e
  | Except.ok (a, st2) => k a st2

instance : Monad M where
  pure := mpure
  bind := mbind

instance {ε α : Type} [DecidableEq ε] [DecidableEq α] : DecidableEq (Except ε α) := fun a b =>
  match a, b with
  | Except.error e1, Except.error e2 =>
      if h : e1 = e2 then Decidable.isTrue (by rw [h])
      else Decidable.isFalse (by simp [h])
  | Except.error _, Except.ok _ => Decidable.isFalse (by simp)
  | Except.ok _, Except.error _ => Decidable.isFalse (by simp)
  | Except.ok a1, Except.ok a2 =>
      if h : a1 = a2 then Decidable.isTrue (by rw [h])
      else Decidable.isFalse (by simp [h])

/-- `#define MAX_INTERFACES 32` of object.c. -/
def MAX_INTERFACES : Nat := 32

/-- Modelled from the spec: the header qemu/object.h (not under src/) defines
`struct ObjectClass { TypeImpl *type; }`, the universal class header of spec
section 3; its size is 1 slot. -/
def sizeofObjectClass : Nat := 1

/-- Modelled from the spec: the universal instance header
`struct Object { ObjectClass *class; GSList *interfaces; }` of spec
section 3 is 2 slots. -/
def sizeofObject : Nat := 2

/-- Size of `struct Interface { Object parent; Object *obj; }` of object.c:
the instance header plus the `obj` back pointer. -/
def sizeofInterface : Nat := sizeofObject + 1

/-- Modelled from the spec: qemu/object.h's `InterfaceClass` carries no data
beyond the universal class header. -/
def sizeofInterfaceClass : Nat := sizeofObjectClass

/-- Modelled from the spec: the distinguished root interface type name
`TYPE_INTERFACE` ("interface", spec section 6). -/
def TYPE_INTERFACE : TName := "interface"

/-- The generated name of `type_register_anonymous`:
`snprintf(buffer, sizeof(buffer), "<anonymous-%d>", count++)`. -/
def anonName (n : Nat) : TName := "<anonymous-" ++ toString n ++ ">"

/-- `type_table_lookup` of object.c. -/
def type_table_lookup (name : TName) : M (Option TypeImpl) := do
  let st ← mget
  mpure (alookup st.table name)

/-- `type_table_add` of object.c (`g_hash_table_insert`: overwrites any
existing entry of the same name). -/
def type_table_add (ti : TypeImpl) : M Unit := do
  let st ← mget
  mset { st with table := aset st.table ti.name ti }

/-- `type_get_by_name` of object.c: NULL name gives NULL. -/
def type_get_by_name (name : Option TName) : M (Option TypeImpl) :=
  match name with
  | none => mpure none
  | some n => type_table_lookup n

/-- The copy loop `for (i = 0; info->interfaces[i].type; i++)` shared by both
registration functions: the list models the non-NULL prefix of the array.
The C loop has no bound check against MAX_INTERFACES; the model likewise
records every entry (in C an overlong list overruns `ti->interfaces`). -/
def copyInterfaces : Option (List InterfaceInfo) → List InterfaceImpl
  | none => []
  | some l => l.map fun ii =>
      { parent := ii.type, interface_initfn := ii.interface_initfn, type := none }

/-- The descriptor `type_register_static` builds for name `n`: every
`TypeInfo` field is copied; `class` starts NULL. -/
def staticTI (info : TypeInfo) (n : TName) : TypeImpl :=
  { name := n
    parent := info.parent
    class_size := info.class_size
    instance_size := info.instance_size
    base_init := info.base_init
    base_finalize := info.base_finalize
    class_init := info.class_init
    class_finalize := info.class_finalize
    class_data := info.class_data
    instance_init := info.instance_init
    instance_finalize := info.instance_finalize
    abstract := info.abstract
    cls := none
    interfaces := copyInterfaces info.interfaces }

/-- The descriptor `type_register_anonymous` builds: as `staticTI`, except
that the source never copies `info->abstract`, so the `g_malloc0` leaves the
new descriptor's `abstract` false. -/
def anonTI (info : TypeInfo) (n : TName) : TypeImpl :=
  { staticTI info n with abstract := false }

/-- `type_register_static` of object.c. Returns the registry key standing for
the returned `TypeImpl *`. -/
def type_register_static (info : TypeInfo) : M TName := do
  match info.name with
  | none => mthrow "g_assert failed: info->name != NULL"
  | some n => do
      type_table_add (staticTI info n)
      mpure n

/-- `type_register_anonymous` of object.c. -/
def type_register_anonymous (info : TypeInfo) : M TName := do
  let st ← mget
  let n := anonName st.anonCount
  mset { st with anonCount := st.anonCount + 1 }
  type_table_add (anonTI info n)
  mpure n

/-- `type_class_interface_init(ti, &ti->interfaces[i])` of object.c: build a
`TypeInfo` for the anonymous trampoline type, register it, and store the
result into the interface entry (`iface->type = ...`). The registration is
also recorded as an `iface_synth` event to pin its order against the later
`class_init` call. -/
def type_class_interface_init (tn : TName) (i : Nat) : M Unit := do
  let st ← mget
  match alookup st.table tn with
  | none => mthrow "segfault: owner type vanished in type_class_interface_init"
  | some ti =>
      match ti.interfaces[i]? with
      | none => mthrow "bad interface index"
      | some iface => do
          let info : TypeInfo :=
            { instance_size := sizeofInterface
              parent := some iface.parent
              class_size := sizeofInterfaceClass
              class_init := iface.interface_initfn
              abstract := true }
          let anon ← type_register_anonymous info
          let st2 ← mget
          mset { st2 with log := st2.log ++ [Event.iface_synth tn iface.parent anon] }
          let st3 ← mget
          match alookup st3.table tn with
          | none => mthrow "segfault: owner type vanished after registration"
          | some ti3 =>
              let ti4 : TypeImpl :=
                { ti3 with interfaces :=
                    ti3.interfaces.set i { iface with type := some anon } }
              mset { st3 with table := aset st3.table tn ti4 }

/-- Update one allocated instance in place (a store through an `Object *`). -/
def modifyObjM (oid : Nat) (f : Obj → Obj) : M Unit := do
  let st ← mget
  match alookup st.objs oid with
  | none => mthrow "segfault: store through a dangling object pointer"
  | some o => mset { st with objs := aset st.objs oid (f o) }

/-- The `memset(obj, 0, ti->instance_size)` of `object_initialize`, at the
slot granularity of the modelled instance layout: slot 0 is `obj->class`,
slot 1 is `obj->interfaces`, slot 2 is the trampoline back pointer
`Interface.obj`. Only slots below `n` are cleared. -/
def memsetObj (n : Nat) (o : Obj) : Obj :=
  { cls := if 1 ≤ n then none else o.cls
    interfaces := if 2 ≤ n then [] else o.interfaces
    ifaceObj := if 3 ≤ n then none else o.ifaceObj }

/-- One fuel level of every recursive (or mutually recursive) function of
object.c: each C function is a field, and every call from one body to
another goes through the previous fuel level, so each call consumes one unit
of fuel. The recursions all run on the user-supplied type graph, which may
be cyclic, hence the explicit fuel. -/
structure Fns where
  type_class_base_init : TName → Option TName → M Unit
  type_class_get_size : TypeImpl → M Nat
  type_class_interface_loop : TName → List Nat → M Unit
  type_class_init : TName → M Unit
  chain_walk : Option TypeImpl → Option TName → M Bool
  object_is_type : Nat → TName → M Bool
  iface_any : List Nat → TName → M Bool
  object_dynamic_cast : Nat → TName → M (Option Nat)
  cast_iface_loop : List Nat → TName → M (Option Nat)
  object_dynamic_cast_assert : Nat → TName → M Nat
  object_new : Option TName → M Nat
  object_initialize_fn : Nat → Option TName → M Unit
  object_init : Nat → TName → M Unit
  object_iface_loop : Nat → TName → List Nat → M Unit
  object_interface_init : Nat → TName → Nat → M Unit
  object_deinit : Nat → TName → M Unit
  object_deinit_drain : Nat → M Unit
  object_finalize : Nat → M Unit
  object_delete : Nat → M Unit

/-- Fuel level zero: every operation aborts with fuel exhaustion. -/
def engineBase : Fns where
  type_class_base_init := fun _ _ => mthrow "fuel exhausted"
  type_class_get_size := fun _ => mthrow "fuel exhausted"
  type_class_interface_loop := fun _ _ => mthrow "fuel exhausted"
  type_class_init := fun _ => mthrow "fuel exhausted"
  chain_walk := fun _ _ => mthrow "fuel exhausted"
  object_is_type := fun _ _ => mthrow "fuel exhausted"
  iface_any := fun _ _ => mthrow "fuel exhausted"
  object_dynamic_cast := fun _ _ => mthrow "fuel exhausted"
  cast_iface_loop := fun _ _ => mthrow "fuel exhausted"
  object_dynamic_cast_assert := fun _ _ => mthrow "fuel exhausted"
  object_new := fun _ => mthrow "fuel exhausted"
  object_initialize_fn := fun _ _ => mthrow "fuel exhausted"
  object_init := fun _ _ => mthrow "fuel exhausted"
  object_iface_loop := fun _ _ _ => mthrow "fuel exhausted"
  object_interface_init := fun _ _ _ => mthrow "fuel exhausted"
  object_deinit := fun _ _ => mthrow "fuel exhausted"
  object_deinit_drain := fun _ => mthrow "fuel exhausted"
  object_finalize := fun _ => mthrow "fuel exhausted"
  object_delete := fun _ => mthrow "fuel exhausted"

/-- `type_class_base_init(base_ti, typename)` of object.c: recurse to the
root of `typename`'s chain, then on the way back run each level's
`base_init` hook on `base_ti->class`. `base_name` stands for the `base_ti`
pointer; its current `class` field is read at each hook call. -/
def type_class_base_init_body (prev : Fns) (base_name : TName) :
    Option TName → M Unit
  | none => mpure ()
  | some tn => do
      let ti? ← type_table_lookup tn
      match ti? with
      | none => mthrow "segfault: type_get_by_name gave NULL in type_class_base_init"
      | some ti => do
          prev.type_class_base_init base_name ti.parent
          match ti.base_init with
          | none => mpure ()
          | some h => do
              let base? ← type_table_lookup base_name
              match base? with
              | none => mthrow "segfault: base type vanished"
              | some bti =>
                  match bti.cls with
                  | none => mthrow "segfault: base class is NULL"
                  | some c => do
                      let st ← mget
                      mset { st with log := st.log ++ [Event.base_init h c] }

/-- `type_class_get_size` of object.c: a type's own non-zero `class_size`,
else the parent's (recursively), else `sizeof(ObjectClass)`. -/
def type_class_get_size_body (prev : Fns) (ti : TypeImpl) : M Nat :=
  if ti.class_size ≠ 0 then mpure ti.class_size
  else
    match ti.parent with
    | none => mpure sizeofObjectClass
    | some p => do
        let pti? ← type_table_lookup p
        match pti? with
        | none => mthrow "segfault: parent not registered in type_class_get_size"
        | some pti => prev.type_class_get_size pti

/-- Loop `for (i = 0; i < ti->num_interfaces; i++)` of `type_class_init`,
over the index list; each step re-reads the current state. -/
def type_class_interface_loop_body (prev : Fns) (tn : TName) :
    List Nat → M Unit
  | [] => mpure ()
  | i :: rest => do
      type_class_interface_init tn i
      prev.type_class_interface_loop tn rest

/-- `type_class_init` of object.c, the lazy class builder: return if the
class already exists; resolve `class_size`; allocate the zeroed class object
and set its header; build the parent's class, assert
`parent.class_size <= class_size` and byte-copy the parent's vtable tail;
zero the remainder; run the `base_init` chain; synthesize interface types;
run `class_init`. -/
def type_class_init_body (prev : Fns) (tn : TName) : M Unit := do
  let st ← mget
  match alookup st.table tn with
  | none => mthrow "segfault: type_class_init on unregistered type"
  | some ti =>
      match ti.cls with
      | some _ => mpure ()
      | none => do
          let csize ← prev.type_class_get_size ti
          let st1 ← mget
          let cid := st1.classCount
          let fresh : ClassObj :=
            { typeName := tn, tail := List.replicate (csize - sizeofObjectClass) 0 }
          mset { st1 with
            classCount := cid + 1
            classes := aset st1.classes cid fresh
            table := aset st1.table tn { ti with class_size := csize, cls := some cid } }
          let copyBound ←
            match ti.parent with
            | none => mpure sizeofObjectClass
            | some pn => do
                prev.type_class_init pn
                let st2 ← mget
                match alookup st2.table pn with
                | none => mthrow "segfault: parent vanished in type_class_init"
                | some pti =>
                    if csize < pti.class_size then
                      mthrow "g_assert failed: ti_parent->class_size <= ti->class_size"
                    else
                      match pti.cls with
                      | none => mthrow "segfault: parent class is NULL"
                      | some pcid =>
                          match alookup st2.classes pcid with
                          | none => mthrow "segfault: parent class object missing"
                          | some pcobj => do
                              let copyLen := pti.class_size - sizeofObjectClass
                              match alookup st2.classes cid with
                              | none => mthrow "segfault: own class object missing"
                              | some cobj => do
                                  let cobj2 : ClassObj :=
                                    { cobj with tail :=
                                        pcobj.tail.take copyLen ++ cobj.tail.drop copyLen }
                                  mset { st2 with classes := aset st2.classes cid cobj2 }
                                  mpure pti.class_size
          let st4 ← mget
          match alookup st4.classes cid with
          | none => mthrow "segfault: own class object missing at memset"
          | some cobj2 => do
              let idx := copyBound - sizeofObjectClass
              let cobj3 : ClassObj :=
                { cobj2 with tail :=
                    cobj2.tail.take idx ++
                      List.replicate (cobj2.tail.length - idx) 0 }
              mset { st4 with classes := aset st4.classes cid cobj3 }
              prev.type_class_base_init tn ti.parent
              prev.type_class_interface_loop tn (List.range ti.interfaces.length)
              match ti.class_init with
              | none => mpure ()
              | some h => do
                  let st5 ← mget
                  mset { st5 with log := st5.log ++ [Event.class_init h cid ti.class_data] }

/-- The `while (type) { ... }` ancestry walk of `object_is_type`: compare the
current descriptor against `target` (the looked-up target descriptor, `none`
when `typename` is unregistered, in which case no comparison ever succeeds),
stepping through `type_get_by_name(type->parent)`. Descriptor identity is the
registry key. -/
def chain_walk_body (prev : Fns) :
    Option TypeImpl → Option TName → M Bool
  | none, _ => mpure false
  | some ti, target => do
      if some ti.name = target then mpure true
      else do
        let nxt ← type_get_by_name ti.parent
        prev.chain_walk nxt target

/-- `object_is_type` of object.c: true iff `typename` is an ancestor of the
instance's type, or (recursively) one of its interface trampolines is of
`typename`. -/
def object_is_type_body (prev : Fns) (oid : Nat) (tn : TName) : M Bool := do
  let st ← mget
  match alookup st.objs oid with
  | none => mthrow "segfault: object_is_type on a dangling object"
  | some o =>
      match o.cls with
      | none => mthrow "segfault: obj->class is NULL in object_is_type"
      | some cid =>
          match alookup st.classes cid with
          | none => mthrow "segfault: dangling class in object_is_type"
          | some cobj => do
              let target? ← type_table_lookup tn
              let start ← type_table_lookup cobj.typeName
              let hit ← prev.chain_walk start (target?.map (fun t => t.name))
              if hit then mpure true
              else prev.iface_any o.interfaces tn

/-- The `for (i = obj->interfaces; i; i = i->next)` loop of `object_is_type`. -/
def iface_any_body (prev : Fns) : List Nat → TName → M Bool
  | [], _ => mpure false
  | i :: rest, tn => do
      let b ← prev.object_is_type i tn
      if b then mpure true else prev.iface_any rest tn

/-- `object_dynamic_cast` of object.c: return the object itself when
`object_is_type` holds (ancestry or any interface); else the first interface
trampoline of the target type; else, when the object is itself a trampoline,
its `obj` back pointer when that owner is of the target type; else NULL. -/
def object_dynamic_cast_body (prev : Fns) (oid : Nat) (tn : TName) :
    M (Option Nat) := do
  let b ← prev.object_is_type oid tn
  if b then mpure (some oid)
  else do
    let st ← mget
    match alookup st.objs oid with
    | none => mthrow "segfault: dangling object in object_dynamic_cast"
    | some o => do
        let r ← prev.cast_iface_loop o.interfaces tn
        match r with
        | some i => mpure (some i)
        | none => do
            let bi ← prev.object_is_type oid TYPE_INTERFACE
            if bi then do
              let selfId ← prev.object_dynamic_cast_assert oid TYPE_INTERFACE
              let st2 ← mget
              match alookup st2.objs selfId with
              | none => mthrow "segfault: INTERFACE cast gave dangling object"
              | some io =>
                  match io.ifaceObj with
                  | none => mthrow "segfault: iface->obj is NULL"
                  | some owner => do
                      let bo ← prev.object_is_type owner tn
                      if bo then mpure (some owner) else mpure none
            else mpure none

/-- The trampoline search loop of `object_dynamic_cast` (its step 2). -/
def cast_iface_loop_body (prev : Fns) : List Nat → TName → M (Option Nat)
  | [], _ => mpure none
  | i :: rest, tn => do
      let b ← prev.object_is_type i tn
      if b then mpure (some i) else prev.cast_iface_loop rest tn

/-- `object_dynamic_cast_assert` of object.c: as `object_dynamic_cast`, and
`abort()` on a NULL result. Also the model of the header's `OBJECT_CHECK` /
`INTERFACE` cast macros, which expand to it. -/
def object_dynamic_cast_assert_body (prev : Fns) (oid : Nat) (tn : TName) :
    M Nat := do
  let r ← prev.object_dynamic_cast oid tn
  match r with
  | none => mthrow "abort: object is not an instance of the target type"
  | some i => mpure i

/-- `object_new` of object.c: `g_malloc(ti->instance_size)` (a fresh id)
followed by `object_initialize`. -/
def object_new_body (prev : Fns) (tn : Option TName) : M Nat := do
  let ti? ← type_get_by_name tn
  match ti? with
  | none => mthrow "segfault: object_new of an unresolvable type"
  | some _ => do
      let st ← mget
      let oid := st.objCount
      mset { st with
        objCount := oid + 1
        objs := aset st.objs oid { cls := none, interfaces := [], ifaceObj := none } }
      prev.object_initialize_fn oid tn
      mpure oid

/-- `object_initialize` of object.c (named `object_initialize_fn` here):
resolve the type, `g_assert(ti->instance_size >= sizeof(ObjectClass))`
(note: the CLASS header size, not the instance header size), build the
class, `g_assert(ti->abstract == false)`, zero the first `instance_size`
slots of the buffer, set `obj->class`, and run the init chain. -/
def object_initialize_fn_body (prev : Fns) (oid : Nat) (tn : Option TName) :
    M Unit := do
  let ti? ← type_get_by_name tn
  match ti?, tn with
  | none, _ => mthrow "segfault: NULL type in object_initialize"
  | some _, none => mthrow "segfault: unreachable"
  | some ti, some n => do
      if ti.instance_size < sizeofObjectClass then
        mthrow "g_assert failed: ti->instance_size >= sizeof(ObjectClass)"
      else do
        prev.type_class_init n
        let st ← mget
        match alookup st.table n with
        | none => mthrow "segfault: type vanished in object_initialize"
        | some ti2 => do
            if ti2.abstract then
              mthrow "g_assert failed: ti->abstract == false"
            else do
              modifyObjM oid (memsetObj ti2.instance_size)
              modifyObjM oid (fun o => { o with cls := ti2.cls })
              prev.object_init oid n

/-- `object_init` of object.c: recurse on the parent chain top-down; at each
level install that level's interface trampolines, then run that level's
`instance_init`. -/
def object_init_body (prev : Fns) (oid : Nat) (tn : TName) : M Unit := do
  let ti? ← type_table_lookup tn
  match ti? with
  | none => mthrow "segfault: object_init on an unregistered type"
  | some ti => do
      match ti.parent with
      | some p => prev.object_init oid p
      | none => mpure ()
      prev.object_iface_loop oid tn (List.range ti.interfaces.length)
      match ti.instance_init with
      | none => mpure ()
      | some h => do
          let st ← mget
          mset { st with log := st.log ++ [Event.instance_init h oid] }

/-- The `for (i = 0; i < ti->num_interfaces; i++)` loop of `object_init`. -/
def object_iface_loop_body (prev : Fns) (oid : Nat) (tn : TName) :
    List Nat → M Unit
  | [] => mpure ()
  | i :: rest => do
      prev.object_interface_init oid tn i
      prev.object_iface_loop oid tn rest

/-- `object_interface_init(obj, &ti->interfaces[i])` of object.c:
`object_new` the synthesized anonymous type, `INTERFACE(...)`-check the
result (an `object_dynamic_cast_assert` to TYPE_INTERFACE), point its `obj`
back pointer at the owner, and prepend it to the owner's interface list. -/
def object_interface_init_body (prev : Fns) (oid : Nat) (tn : TName) (i : Nat) :
    M Unit := do
  let st ← mget
  match alookup st.table tn with
  | none => mthrow "segfault: owner type vanished in object_interface_init"
  | some ti =>
      match ti.interfaces[i]? with
      | none => mthrow "bad interface index in object_interface_init"
      | some iface =>
          match iface.type with
          | none => mthrow "segfault: iface->type is NULL in object_interface_init"
          | some anon => do
              let newId ← prev.object_new (some anon)
              let ifId ← prev.object_dynamic_cast_assert newId TYPE_INTERFACE
              modifyObjM ifId (fun o => { o with ifaceObj := some oid })
              modifyObjM oid (fun o => { o with interfaces := ifId :: o.interfaces })

/-- `object_deinit` of object.c. Note the last step: the source recurses
into `object_init` on the parent, not into `object_deinit`. The model is
faithful to the source. -/
def object_deinit_body (prev : Fns) (oid : Nat) (tn : TName) : M Unit := do
  let ti? ← type_table_lookup tn
  match ti? with
  | none => mthrow "segfault: object_deinit on an unregistered type"
  | some ti => do
      match ti.instance_finalize with
      | none => mpure ()
      | some h => do
          let st ← mget
          mset { st with log := st.log ++ [Event.instance_finalize h oid] }
      prev.object_deinit_drain oid
      match ti.parent with
      | some p => prev.object_init oid p
      | none => mpure ()

/-- The `while (obj->interfaces)` teardown loop of `object_deinit`: unlink
the head trampoline and `object_delete` it. -/
def object_deinit_drain_body (prev : Fns) (oid : Nat) : M Unit := do
  let st ← mget
  match alookup st.objs oid with
  | none => mthrow "segfault: dangling object in object_deinit"
  | some o =>
      match o.interfaces with
      | [] => mpure ()
      | ifId :: rest => do
          mset { st with objs := aset st.objs oid { o with interfaces := rest } }
          prev.object_delete ifId
          prev.object_deinit_drain oid

/-- `object_finalize` of object.c: read the type off `obj->class->type` and
run `object_deinit`. -/
def object_finalize_body (prev : Fns) (oid : Nat) : M Unit := do
  let st ← mget
  match alookup st.objs oid with
  | none => mthrow "segfault: dangling object in object_finalize"
  | some o =>
      match o.cls with
      | none => mthrow "segfault: obj->class is NULL in object_finalize"
      | some cid =>
          match alookup st.classes cid with
          | none => mthrow "segfault: dangling class in object_finalize"
          | some cobj => prev.object_deinit oid cobj.typeName

/-- `object_delete` of object.c: `object_finalize` then `g_free`. -/
def object_delete_body (prev : Fns) (oid : Nat) : M Unit := do
  prev.object_finalize oid
  let st ← mget
  mset { st with objs := aremove st.objs oid }

/-- One step of the fuel tower: every operation at level `fuel + 1` runs its
body with the level-`fuel` operations. -/
def engineStep (prev : Fns) : Fns where
  type_class_base_init := type_class_base_init_body prev
  type_class_get_size := type_class_get_size_body prev
  type_class_interface_loop := type_class_interface_loop_body prev
  type_class_init := type_class_init_body prev
  chain_walk := chain_walk_body prev
  object_is_type := object_is_type_body prev
  iface_any := iface_any_body prev
  object_dynamic_cast := object_dynamic_cast_body prev
  cast_iface_loop := cast_iface_loop_body prev
  object_dynamic_cast_assert := object_dynamic_cast_assert_body prev
  object_new := object_new_body prev
  object_initialize_fn := object_initialize_fn_body prev
  object_init := object_init_body prev
  object_iface_loop := object_iface_loop_body prev
  object_interface_init := object_interface_init_body prev
  object_deinit := object_deinit_body prev
  object_deinit_drain := object_deinit_drain_body prev
  object_finalize := object_finalize_body prev
  object_delete := object_delete_body prev

/-- The fuel tower of all recursive operations. -/
def engineFns (fuel : Nat) : Fns :=
  Nat.rec engineBase (fun _ prev => engineStep prev) fuel

/-- `type_class_base_init` at a given fuel. -/
def type_class_base_init (fuel : Nat) (base_name : TName) (otn : Option TName) : M Unit :=
  (engineFns fuel).type_class_base_init base_name otn

/-- `type_class_get_size` at a given fuel. -/
def type_class_get_size (fuel : Nat) (ti : TypeImpl) : M Nat :=
  (engineFns fuel).type_class_get_size ti

/-- `type_class_init` at a given fuel. -/
def type_class_init (fuel : Nat) (tn : TName) : M Unit :=
  (engineFns fuel).type_class_init tn

/-- The ancestry walk of `object_is_type` at a given fuel. -/
def chain_walk (fuel : Nat) (cur : Option TypeImpl) (target : Option TName) : M Bool :=
  (engineFns fuel).chain_walk cur target

/-- `object_is_type` at a given fuel. -/
def object_is_type (fuel : Nat) (oid : Nat) (tn : TName) : M Bool :=
  (engineFns fuel).object_is_type oid tn

/-- The interface recursion loop of `object_is_type` at a given fuel. -/
def iface_any (fuel : Nat) (l : List Nat) (tn : TName) : M Bool :=
  (engineFns fuel).iface_any l tn

/-- `object_dynamic_cast` at a given fuel. -/
def object_dynamic_cast (fuel : Nat) (oid : Nat) (tn : TName) : M (Option Nat) :=
  (engineFns fuel).object_dynamic_cast oid tn

/-- `object_dynamic_cast_assert` at a given fuel. -/
def object_dynamic_cast_assert (fuel : Nat) (oid : Nat) (tn : TName) : M Nat :=
  (engineFns fuel).object_dynamic_cast_assert oid tn

/-- `object_new` at a given fuel. -/
def object_new (fuel : Nat) (tn : Option TName) : M Nat :=
  (engineFns fuel).object_new tn

/-- `object_initialize` at a given fuel. -/
def object_initialize_fn (fuel : Nat) (oid : Nat) (tn : Option TName) : M Unit :=
  (engineFns fuel).object_initialize_fn oid tn

/-- `object_init` at a given fuel. -/
def object_init (fuel : Nat) (oid : Nat) (tn : TName) : M Unit :=
  (engineFns fuel).object_init oid tn

/-- `object_deinit` at a given fuel. -/
def object_deinit (fuel : Nat) (oid : Nat) (tn : TName) : M Unit :=
  (engineFns fuel).object_deinit oid tn

/-- `object_finalize` at a given fuel. -/
def object_finalize (fuel : Nat) (oid : Nat) : M Unit :=
  (engineFns fuel).object_finalize oid

/-- `object_delete` at a given fuel. -/
def object_delete (fuel : Nat) (oid : Nat) : M Unit :=
  (engineFns fuel).object_delete oid

/-- `register_interface` of object.c, run at startup by `device_init`:
registers the distinguished abstract root type "interface". -/
def register_interface : M TName :=
  type_register_static
    { name := some TYPE_INTERFACE
      instance_size := sizeofInterface
      abstract := true }

/-- One descriptor per name: the registry's keys are pairwise distinct. -/
def keysUnique {κ α : Type} [DecidableEq κ] (l : List (κ × α)) : Prop :=
  (l.map Prod.fst).Nodup

/-- Test chain Root→Mid→Leaf (the spec's section 8 scenario 4 shape): every
level carries `base_init`, `class_init`, `instance_init` and
`instance_finalize` hooks, with distinct identities per level. -/
def rootInfo : TypeInfo :=
  { name := some "Root", class_size := 4, instance_size := 4,
    base_init := some 10, class_init := some 20, class_data := 7,
    instance_init := some 30, instance_finalize := some 40 }

/-- Middle link of the test chain. -/
def midInfo : TypeInfo :=
  { name := some "Mid", parent := some "Root", class_size := 5, instance_size := 5,
    base_init := some 11, class_init := some 21,
    instance_init := some 31, instance_finalize := some 41 }

/-- Leaf of the test chain. -/
def leafInfo : TypeInfo :=
  { name := some "Leaf", parent := some "Mid", class_size := 6, instance_size := 6,
    base_init := some 12, class_init := some 22,
    instance_init := some 32, instance_finalize := some 42 }

/-- Register the whole test chain. -/
def chainRegister : M Unit := do
  _ ← type_register_static rootInfo
  _ ← type_register_static midInfo
  _ ← type_register_static leafInfo
  mpure ()

/-- The events `object_delete` emits on a fresh `object_new "Leaf"` instance
(the log suffix contributed by the delete alone). -/
def c1_deleteEvents : Except String (List Event) :=
  match (do
      chainRegister
      let o ← object_new 64 (some "Leaf")
      let st1 ← mget
      object_delete 64 o
      let st2 ← mget
      mpure (st2.log.drop st1.log.length) : M (List Event)) initState with
  | Except.ok (l, _) => Except.ok l
  | Except.error e => Except.error e

/-- The events a first `type_class_init "Leaf"` emits when the ancestor
classes are already built (class ids: Mid = 0, Root = 1, Leaf = 2). -/
def c2_buildEvents : Except String (List Event) :=
  match (do
      chainRegister
      type_class_init 64 "Mid"
      let st1 ← mget
      type_class_init 64 "Leaf"
      let st2 ← mget
      mpure (st2.log.drop st1.log.length) : M (List Event)) initState with
  | Except.ok (l, _) => Except.ok l
  | Except.error e => Except.error e

/-- The interface declaration `(I, hook 77)` used by the interface test
scenario. -/
def tIfaceDecl : InterfaceInfo := { type := "I", interface_initfn := some 77 }

/-- A concrete type "T" declaring interface "I". -/
def tInfo : TypeInfo :=
  { name := some "T", instance_size := 4, class_size := 2,
    interfaces := some [tIfaceDecl] }

/-- The abstract interface type "I", a child of the distinguished root
"interface". -/
def iInfo : TypeInfo :=
  { name := some "I", parent := some TYPE_INTERFACE, abstract := true }

/-- State after registering "interface", "I", "T" and creating one instance
of "T" (`object_new` id 0; its trampoline for "I" is instance id 1). -/
def ifaceState : QState :=
  match (do
      _ ← register_interface
      _ ← type_register_static iInfo
      _ ← type_register_static tInfo
      let _ ← object_new 64 (some "T")
      mpure () : M Unit) initState with
  | Except.ok (_, st) => st
  | Except.error _ => initState

/-- First registration under the duplicated name. -/
def dupA : TypeInfo := { name := some "dup", instance_size := 7 }

/-- Second registration under the duplicated name. -/
def dupB : TypeInfo := { name := some "dup", instance_size := 9 }

/-- Register the same name twice. -/
def c7_run : Except String (TName × QState) :=
  (do
    _ ← type_register_static dupA
    type_register_static dupB : M TName) initState

/-- Whether the duplicate registration aborted. -/
def c7_succeeded : Bool :=
  match c7_run with
  | Except.ok _ => true
  | Except.error _ => false

/-- The registry contents at "dup" after the double registration. -/
def c7_dup_size : Option Nat :=
  match c7_run with
  | Except.ok (_, st) => (alookup st.table "dup").map fun ti => ti.instance_size
  | Except.error _ => none

/-- A `TypeInfo` declaring 33 interfaces, one more than MAX_INTERFACES. -/
def info33 : TypeInfo :=
  { name := some "big33",
    interfaces := some ((List.range 33).map fun k =>
      { type := "iface" ++ toString k, interface_initfn := none }) }

/-- Outcome of registering `info33`: the number of interface entries the
registered descriptor records, or an error had registration aborted. -/
def c9_registered_count : Except String Nat :=
  match type_register_static info33 initState with
  | Except.ok (n, st) =>
      match alookup st.table n with
      | some ti => Except.ok ti.interfaces.length
      | none => Except.error "descriptor missing"
  | Except.error e => Except.error e

/-- A type whose instance_size is exactly the class-header size, smaller
than the instance header. -/
def tinyInfo : TypeInfo := { name := some "tiny", instance_size := sizeofObjectClass }

/-- Register "tiny" and create an instance. -/
def c10_new_tiny : Except String (Nat × QState) :=
  (do
    _ ← type_register_static tinyInfo
    object_new 64 (some "tiny") : M Nat) initState

/-- Whether creating the undersized instance aborted. -/
def c10_succeeded : Bool :=
  match c10_new_tiny with
  | Except.ok _ => true
  | Except.error _ => false

/-- State with the Root→Mid→Leaf chain registered and Leaf's class built
(class ids: Leaf = 0, Mid = 1, Root = 2). -/
def builtState : QState :=
  match (do
      chainRegister
      type_class_init 32 "Leaf" : M Unit) initState with
  | Except.ok (_, st) => st
  | Except.error _ => initState

/-- State after the first registration of "dup". -/
def c7_state1 : QState :=
  match type_register_static dupA initState with
  | Except.ok (_, st) => st
  | Except.error _ => initState

/-- The `TypeInfo` that `type_class_interface_init` builds for an interface
declaration: the trampoline instance size, the InterfaceClass class size,
the declared interface as parent, the declared hook as `class_init`, and
`abstract = true` (which `type_register_anonymous` then fails to copy). -/
def synthIfaceInfo (iface : InterfaceImpl) : TypeInfo :=
  { instance_size := sizeofInterface
    parent := some iface.parent
    class_size := sizeofInterfaceClass
    class_init := iface.interface_initfn
    abstract := true }

/-- State after registering "interface", "I" and "T", before any class
build. -/
def preIfaceState : QState :=
  match (do
      _ ← register_interface
      _ ← type_register_static iInfo
      _ ← type_register_static tInfo
      mpure () : M Unit) initState with
  | Except.ok (_, st) => st
  | Except.error _ => initState

/-- The parametrized chain for C2: base_init hooks `b1`, `b2`, `b3` on Root,
Mid, Leaf, Leaf's `class_init` hook `cL` with class_data `d`, and one
interface declaration on Leaf; Mid's (and hence Root's) class is built
first, then Leaf's, and the log suffix of Leaf's build is returned. Class
ids: Mid = 0, Root = 1, Leaf = 2. -/
def c2_family (b1 b2 b3 cL : Option Nat) (d : Nat) : Option (List Event) :=
  match (do
      _ ← register_interface
      _ ← type_register_static iInfo
      _ ← type_register_static
          { name := some "Root", class_size := 4, instance_size := 4, base_init := b1 }
      _ ← type_register_static
          { name := some "Mid", parent := some "Root", class_size := 5, instance_size := 5,
            base_init := b2 }
      _ ← type_register_static
          { name := some "Leaf", parent := some "Mid", class_size := 6, instance_size := 6,
            base_init := b3, class_init := cL, class_data := d,
            interfaces := some [tIfaceDecl] }
      type_class_init 32 "Mid"
      let st1 ← mget
      type_class_init 32 "Leaf"
      let st2 ← mget
      mpure (st2.log.drop st1.log.length) : M (List Event)) initState with
  | Except.ok (l, _) => some l
  | Except.error _ => none

/-- Turn an optional hook into its event list (an absent hook is skipped). -/
def optEvent (f : Nat → Event) : Option Nat → List Event
  | none => []
  | some h => [f h]

/-- The class-size resolution rule in the spec's words, for refinement
comparison with `type_class_get_size`: walk ancestors until a non-zero
`class_size` is found; if the walk ends at a root with none found, use the
universal class-header size; `none` on unresolvable chains or exhausted
fuel. -/
def spec_resolved_class_size : Nat → QState → TypeImpl → Option Nat
  | 0, _, _ => none
  | fuel+1, st, ti =>
      if ti.class_size ≠ 0 then some ti.class_size
      else
        match ti.parent with
        | none => some sizeofObjectClass
        | some p =>
            match alookup st.table p with
            | none => none
            | some pti => spec_resolved_class_size fuel st pti

/-- After a from-scratch `type_class_init "Leaf"`, both ancestors' classes
exist: the build recursively ensured the parent chain. -/
def c3_parent_built : Bool :=
  match (do
      chainRegister
      type_class_init 32 "Leaf" : M Unit) initState with
  | Except.ok (_, st) =>
      (match alookup st.table "Mid" with
       | some ti => ti.cls.isSome
       | none => false) &&
      (match alookup st.table "Root" with
       | some ti => ti.cls.isSome
       | none => false)
  | Except.error _ => false

/-- Parent descriptor of the C3 witness registry: class_size 3, class built
(id 0) with vtable tail [5, 7]. -/
def c3wTI_P : TypeImpl :=
  { name := "P", class_size := 3, instance_size := 2, base_init := none,
    base_finalize := none, class_init := none, class_finalize := none,
    class_data := 0, instance_init := none, instance_finalize := none,
    abstract := false, parent := none, cls := some 0, interfaces := [] }

/-- Child descriptor of the C3 witness registry: class_size 6, unbuilt. -/
def c3wTI_T : TypeImpl :=
  { c3wTI_P with name := "T", class_size := 6, parent := some "P", cls := none }

/-- Child descriptor violating the layout assert: class_size 2 < parent's 3. -/
def c3wTI_T2 : TypeImpl :=
  { c3wTI_T with class_size := 2 }

/-- C3 witness state: parent "P" built with nonzero vtable content. -/
def c3w_state : QState :=
  { table := [("P", c3wTI_P), ("T", c3wTI_T)], anonCount := 0,
    classes := [(0, { typeName := "P", tail := [5, 7] })], classCount := 1,
    objs := [], objCount := 0, log := [] }

/-- As `c3w_state` but with the undersized child. -/
def c3w_state2 : QState :=
  { c3w_state with table := [("P", c3wTI_P), ("T", c3wTI_T2)] }

/-- Result state of building "T" in `c3w_state`. -/
def c3w_result : QState :=
  match type_class_init 10 "T" c3w_state with
  | Except.ok (_, st) => st
  | Except.error _ => initState

/-- Do-notation bind of `M` is `mbind`. -/
theorem bind_def {α β : Type} (m : M α) (k : α → M β) : m >>= k = mbind m k := rfl

/-- Do-notation pure of `M` is `mpure`. -/
theorem pure_def {α : Type} (a : α) : (pure a : M α) = mpure a := rfl

/-- Run a bind whose first component succeeds. -/
theorem mbind_ok {α β : Type} {m : M α} {k : α → M β} {st st1 : QState} {a : α}
    (h : m st = Except.ok (a, st1)) : mbind m k st = k a st1 := by
  unfold mbind
  rw [h]

/-- Run a bind whose first component fails. -/
theorem mbind_err {α β : Type} {m : M α} {k : α → M β} {st : QState} {e : String}
    (h : m st = Except.error e) : mbind m k st = Except.error e := by
  unfold mbind
  rw [h]

/-- Invert a successful bind into its two successful stages. -/
theorem mbind_ok_inv {α β : Type} {m : M α} {k : α → M β} {st st2 : QState} {b : β}
    (h : mbind m k st = Except.ok (b, st2)) :
    ∃ a st1, m st = Except.ok (a, st1) ∧ k a st1 = Except.ok (b, st2) := by
  cases hm : m st with
  | error e => simp [mbind, hm] at h
  | ok p =>
      obtain ⟨a, st1⟩ := p
      refine ⟨a, st1, rfl, ?_⟩
      simpa [mbind, hm] using h

/-- Looking up the key just written finds the new value. -/
theorem alookup_aset_self {κ α : Type} [DecidableEq κ] (l : List (κ × α)) (k : κ) (v : α) :
    alookup (aset l k v) k = some v := by
  induction l with
  | nil => simp [aset, alookup]
  | cons kv rest ih =>
      obtain ⟨k2, v2⟩ := kv
      by_cases h : k2 = k
      · simp [aset, alookup, h]
      · simp [aset, alookup, h, ih]

/-- Writing one key leaves every other key's lookup unchanged. -/
theorem alookup_aset_ne {κ α : Type} [DecidableEq κ] (l : List (κ × α)) (k k2 : κ) (v : α)
    (hne : k ≠ k2) : alookup (aset l k v) k2 = alookup l k2 := by
  induction l with
  | nil => simp [aset, alookup, hne]
  | cons kv rest ih =>
      obtain ⟨k3, v3⟩ := kv
      by_cases h : k3 = k
      · subst h
        simp [aset, alookup, hne]
      · by_cases h2 : k3 = k2
        · simp [aset, alookup, h, h2, hne.symm]
        · simp [aset, alookup, h, h2, ih]

/-- The keys after an insert-or-replace: unchanged when the key was present,
else the old keys with the new key appended. -/
theorem aset_map_fst {κ α : Type} [DecidableEq κ] (l : List (κ × α)) (k : κ) (v : α) :
    (aset l k v).map Prod.fst =
      if k ∈ l.map Prod.fst then l.map Prod.fst else l.map Prod.fst ++ [k] := by
  induction l with
  | nil => simp [aset]
  | cons kv rest ih =>
      obtain ⟨k3, v3⟩ := kv
      by_cases hk : k3 = k
      · subst hk
        simp [aset]
      · by_cases hmem : k ∈ rest.map Prod.fst
        · simp [aset, hk, hmem, ih, Ne.symm hk]
        · simp [aset, hk, hmem, ih, Ne.symm hk]

/-- `g_hash_table_insert` preserves key uniqueness. -/
theorem keysUnique_aset {κ α : Type} [DecidableEq κ] (l : List (κ × α)) (k : κ) (v : α)
    (h : keysUnique l) : keysUnique (aset l k v) := by
  unfold keysUnique at h ⊢
  rw [aset_map_fst]
  by_cases hmem : k ∈ l.map Prod.fst
  · simpa [hmem] using h
  · simp only [hmem, if_false]
    simpa [List.nodup_append, hmem] using h

/-- C1: the claim requires `delete` on a `new("Leaf")` instance to run
`instance_finalize` bottom-up over the whole chain (Leaf, Mid, Root — hooks
42, 41, 40) and to run no `instance_init` hook. The code instead runs only
Leaf's `instance_finalize` (42) and then, because `object_deinit` recurses
into `object_init` on the parent, re-runs Root's and Mid's `instance_init`
(30, 31): the delete-phase log is exactly
`[instance_finalize 42, instance_init 30, instance_init 31]`. -/
theorem c1_delete_bug_eval :
    c1_deleteEvents = Except.ok
      [Event.instance_finalize 42 0, Event.instance_init 30 0, Event.instance_init 31 0] ∧
    Event.instance_finalize 41 0 ∉
      [Event.instance_finalize 42 0, Event.instance_init 30 0, Event.instance_init 31 0] ∧
    Event.instance_finalize 40 0 ∉
      [Event.instance_finalize 42 0, Event.instance_init 30 0, Event.instance_init 31 0] := by
  refine ⟨by decide, by decide, by decide⟩

/-- C2 counterexample: the claim requires the first class build of Leaf to
invoke the `base_init` hooks of each of Root, Mid, Leaf (hooks 10, 11, 12),
top-down. The build in fact invokes only the strict ancestors' hooks 10 and
11 (each on Leaf's class object 2) and never Leaf's own hook 12; the build
log is exactly `[base_init 10, base_init 11, class_init 22]`. -/
theorem c2_counterexample :
    c2_buildEvents = Except.ok
      [Event.base_init 10 2, Event.base_init 11 2, Event.class_init 22 2 0] ∧
    Event.base_init 12 2 ∉
      [Event.base_init 10 2, Event.base_init 11 2, Event.class_init 22 2 0] := by
  refine ⟨by decide, by decide⟩

/-- C4 counterexample: for the instance 0 of "T" (which declares interface
"I", installed as trampoline instance 1), the claim says
`dynamic_cast(O, I)` yields the interface trampoline and not O itself. The
code returns O itself (`some 0`): `object_is_type` already recurses into the
interface list, so step 1 of `object_dynamic_cast` fires and the instance is
returned. The returned object is not a trampoline (its `Interface.obj` slot
is unset, and the actual trampoline is instance 1). -/
theorem c4_counterexample :
    object_dynamic_cast 64 0 "I" ifaceState = Except.ok (some 0, ifaceState) ∧
    (alookup ifaceState.objs 0).map (fun o => o.ifaceObj) = some none ∧
    (alookup ifaceState.objs 0).map (fun o => o.interfaces) = some [1] := by
  refine ⟨by decide, by decide, by decide⟩

/-- C6 counterexample: building "T"'s class synthesized the anonymous type
`<anonymous-0>` for its interface declaration, with the claimed parent,
sizes and `class_init`, but the registered descriptor's `abstract` flag is
false, not true as the claim states: `type_register_anonymous` never copies
`info->abstract` (and `object_new` of the trampoline would abort if it
did). -/
theorem c6_counterexample :
    (alookup ifaceState.table (anonName 0)).map (fun ti => ti.abstract) = some false ∧
    (alookup ifaceState.table (anonName 0)).map (fun ti => ti.parent) = some (some "I") ∧
    (alookup ifaceState.table (anonName 0)).map (fun ti => ti.class_init) = some (some 77) := by
  refine ⟨by decide, by decide, by decide⟩

/-- C7 counterexample: the claim says registering a second type under an
already-present name is a fatal registration-time error. Registering "dup"
twice in fact succeeds: `type_table_add` is a plain `g_hash_table_insert`
with no duplicate check, and the second descriptor (instance_size 9)
silently replaces the first (instance_size 7). -/
theorem c7_counterexample :
    c7_succeeded = true ∧ c7_dup_size = some 9 := by
  refine ⟨by decide, by decide⟩

/-- C9: the claim (and the spec's error table) requires registering a type
with more than MAX_INTERFACES = 32 interfaces to be fatal at registration
time. The copy loop of `type_register_static` has no bound check: the
registration succeeds and records all 33 entries (in C this writes past the
end of the 32-entry `ti->interfaces` array). -/
theorem c9_overflow_eval :
    c9_registered_count = Except.ok 33 ∧ MAX_INTERFACES < 33 := by
  refine ⟨by decide, by decide⟩

/-- C10: the claim requires `initialize` to be fatal whenever the resolved
type's instance_size is below the universal instance header size
(`sizeof(Object)`, 2 slots: the class reference and the interface list).
The code's `g_assert` compares against `sizeof(ObjectClass)` (1 slot, the
class header) instead, so a type with instance_size 1 — smaller than the
instance header whose fields `object_initialize` itself goes on to write —
is accepted and `object_new` succeeds. -/
theorem c10_small_instance_eval :
    c10_succeeded = true ∧ tinyInfo.instance_size < sizeofObject ∧
      tinyInfo.instance_size = sizeofObjectClass := by
  refine ⟨by decide, by decide, by decide⟩

/-- Unfolding one fuel level of the engine. -/
theorem engineFns_succ (fuel : Nat) : engineFns (fuel+1) = engineStep (engineFns fuel) := rfl

/-- `type_class_init` at positive fuel runs its body at the previous level. -/
theorem type_class_init_succ (fuel : Nat) (tn : TName) :
    type_class_init (fuel+1) tn = type_class_init_body (engineFns fuel) tn := rfl

/-- Helper: `type_class_init` on a type whose class already exists is a
no-op: identical state, no hook events. -/
theorem tci_built_noop (st : QState) (tn : TName) (ti : TypeImpl) (c fuel : Nat)
    (h1 : alookup st.table tn = some ti) (h2 : ti.cls = some c) :
    type_class_init (fuel+1) tn st = Except.ok ((), st) := by
  rw [type_class_init_succ]
  simp only [type_class_init_body, bind_def, mbind, mget, h1, h2, mpure]

/-- C5: class construction is idempotent. Once a type's registry entry
carries a class object (`class != NULL`), any further `type_class_init` —
however it is forced — returns with the state completely unchanged: the
same class-object id stays in place (never rebuilt or replaced), no event
is appended to the log, so every `base_init`/`class_init` hook runs at most
once, and any two operations forcing the build observe the identical
class-object identity. -/
theorem c5_class_build_idempotent (st : QState) (tn : TName) (c fuel : Nat)
    (h : (alookup st.table tn).map (fun ti => ti.cls) = some (some c)) :
    type_class_init (fuel+1) tn st = Except.ok ((), st) := by
  rcases Option.map_eq_some'.mp h with ⟨ti, hti, hcls⟩
  exact tci_built_noop st tn ti c fuel hti hcls

/-- Witness for C5 at a concrete built state: rebuilding Leaf's class (id 0)
is the identity on the state. -/
theorem c5_class_build_idempotent_witness :
    type_class_init 32 "Leaf" builtState = Except.ok ((), builtState) :=
  c5_class_build_idempotent builtState "Leaf" 0 31 (by decide)

/-- C7 amended: registering under an already-present name is not fatal.
`type_register_static` succeeds, returns the name, and its
`g_hash_table_insert` replaces the previous descriptor with the new one
(last registration wins), preserving the one-descriptor-per-name shape of
the registry: the new name's lookup yields exactly the new descriptor and
key uniqueness is preserved. -/
theorem c7_duplicate_overwrites (st : QState) (info : TypeInfo) (n : TName)
    (hname : info.name = some n)
    (hdup : (alookup st.table n).isSome = true) :
    type_register_static info st =
      Except.ok (n, { st with table := aset st.table n (staticTI info n) }) ∧
    alookup (aset st.table n (staticTI info n)) n = some (staticTI info n) ∧
    (keysUnique st.table → keysUnique (aset st.table n (staticTI info n))) := by
  refine ⟨?_, alookup_aset_self st.table n (staticTI info n),
    keysUnique_aset st.table n (staticTI info n)⟩
  simp only [type_register_static, hname, bind_def, mbind, mget, mset, mpure,
    type_table_add, staticTI]

/-- Witness for C7 at the concrete duplicate: re-registering "dup" (present
since `dupA`'s registration) succeeds and overwrites. -/
theorem c7_duplicate_overwrites_witness :
    type_register_static dupB c7_state1 =
      Except.ok ("dup", { c7_state1 with table := aset c7_state1.table "dup" (staticTI dupB "dup") }) ∧
    alookup (aset c7_state1.table "dup" (staticTI dupB "dup")) "dup" = some (staticTI dupB "dup") ∧
    (keysUnique c7_state1.table → keysUnique (aset c7_state1.table "dup" (staticTI dupB "dup"))) :=
  c7_duplicate_overwrites c7_state1 dupB "dup" (by decide) (by decide)

/-- C6 amended: for the interface declaration at index `i` of type `tn`,
`type_class_interface_init` registers exactly one anonymous type (name
`<anonymous-N>` for the current counter N, counter bumped once) whose
descriptor has parent = the declared interface, instance_size =
sizeof(Interface), class_size = sizeof(InterfaceClass), class_init = the
declared hook — but abstract = false, not true as the claim states: the
synthesized `TypeInfo` does say abstract = true, and `type_register_anonymous`
drops it. The anonymous name is stored back into `tn`'s interface entry. -/
theorem c6_interface_synthesis (st : QState) (tn : TName) (i : Nat)
    (ti : TypeImpl) (iface : InterfaceImpl)
    (h1 : alookup st.table tn = some ti)
    (h2 : ti.interfaces[i]? = some iface)
    (h3 : tn ≠ anonName st.anonCount) :
    type_class_interface_init tn i st =
      Except.ok ((),
        { st with
          anonCount := st.anonCount + 1
          table := aset
            (aset st.table (anonName st.anonCount)
              (anonTI (synthIfaceInfo iface) (anonName st.anonCount)))
            tn
            { ti with interfaces :=
                ti.interfaces.set i { iface with type := some (anonName st.anonCount) } }
          log := st.log ++ [Event.iface_synth tn iface.parent (anonName st.anonCount)] }) ∧
    (anonTI (synthIfaceInfo iface) (anonName st.anonCount)).abstract = false ∧
    (synthIfaceInfo iface).abstract = true ∧
    (anonTI (synthIfaceInfo iface) (anonName st.anonCount)).parent = some iface.parent ∧
    (anonTI (synthIfaceInfo iface) (anonName st.anonCount)).class_init = iface.interface_initfn ∧
    (anonTI (synthIfaceInfo iface) (anonName st.anonCount)).instance_size = sizeofInterface ∧
    (anonTI (synthIfaceInfo iface) (anonName st.anonCount)).class_size = sizeofInterfaceClass := by
  refine ⟨?_, rfl, rfl, rfl, rfl, rfl, rfl⟩
  simp only [type_class_interface_init, bind_def, mbind, mget, mset, mpure, h1, h2,
    type_register_anonymous, type_table_add, anonTI, staticTI, synthIfaceInfo,
    alookup_aset_ne _ _ _ _ (Ne.symm h3)]

/-- Witness for C6 at the concrete scenario: synthesizing "T"'s declaration
of "I" registers its anonymous type with abstract = false. -/
theorem c6_interface_synthesis_witness :
    (anonTI (synthIfaceInfo { parent := "I", interface_initfn := some 77, type := none })
      (anonName preIfaceState.anonCount)).abstract = false :=
  (c6_interface_synthesis preIfaceState "T" 0 (staticTI tInfo "T")
    { parent := "I", interface_initfn := some 77, type := none }
    (by decide) (by decide) (by decide)).2.1

/-- Unfolding lemma for `object_is_type`. -/
theorem object_is_type_succ (fuel oid : Nat) (tn : TName) :
    object_is_type (fuel+1) oid tn = object_is_type_body (engineFns fuel) oid tn := rfl

/-- Unfolding lemma for `object_dynamic_cast`. -/
theorem object_dynamic_cast_succ (fuel oid : Nat) (tn : TName) :
    object_dynamic_cast (fuel+1) oid tn = object_dynamic_cast_body (engineFns fuel) oid tn := rfl

/-- Helper: `object_is_type` evaluated through its two stages: when the
ancestry walk of the instance's own type yields `hit` and, if `hit` is
false, the interface recursion yields `b2`, the result is `hit || b2`. -/
theorem object_is_type_run (st : QState) (fuel oid : Nat) (tn : TName)
    (o : Obj) (cid : Nat) (cobj : ClassObj) (hit : Bool)
    (ho : alookup st.objs oid = some o)
    (hcls : o.cls = some cid)
    (hcobj : alookup st.classes cid = some cobj)
    (hwalk : chain_walk fuel (alookup st.table cobj.typeName)
        ((alookup st.table tn).map (fun t => t.name)) st = Except.ok (hit, st))
    (hif : hit = false → iface_any fuel o.interfaces tn st = Except.ok (true, st)) :
    object_is_type (fuel+1) oid tn st = Except.ok (true, st) := by
  rw [object_is_type_succ]
  simp only [object_is_type_body, bind_def, mbind, mget, mpure, ho, hcls, hcobj,
    type_table_lookup]
  cases hit with
  | true =>
      simp only [chain_walk] at hwalk
      simp only [hwalk]
      rfl
  | false =>
      simp only [chain_walk] at hwalk
      simp only [iface_any] at hif
      simp only [hwalk, Bool.false_eq_true, if_false]
      exact hif trivial

/-- C4 amended: for an instance `oid` whose type's ancestry does not contain
`tnI` but one of whose interface trampolines is of type `tnI` (the situation
of an instance of T with declared interface I), and whose ancestry does
contain `tnT`, `object_dynamic_cast` is not absent for either name and
returns the instance itself both times — the instance is preferred over the
trampoline even when only an interface matches, and the round trip
`dynamic_cast(dynamic_cast(O, I), T)` is `dynamic_cast(O, T) = O`. The
original claim's parenthetical — that the cast yields the trampoline, not O
— is refuted by `c4_counterexample`. -/
theorem c4_dynamic_cast_instance_preferred
    (st : QState) (fuel oid : Nat) (tnI tnT : TName) (o : Obj) (cid : Nat) (cobj : ClassObj)
    (ho : alookup st.objs oid = some o)
    (hcls : o.cls = some cid)
    (hcobj : alookup st.classes cid = some cobj)
    (hwalkI : chain_walk fuel (alookup st.table cobj.typeName)
        ((alookup st.table tnI).map (fun t => t.name)) st = Except.ok (false, st))
    (hifI : iface_any fuel o.interfaces tnI st = Except.ok (true, st))
    (hwalkT : chain_walk fuel (alookup st.table cobj.typeName)
        ((alookup st.table tnT).map (fun t => t.name)) st = Except.ok (true, st)) :
    object_dynamic_cast (fuel+2) oid tnI st = Except.ok (some oid, st) ∧
    object_dynamic_cast (fuel+2) oid tnT st = Except.ok (some oid, st) := by
  have hI : object_is_type (fuel+1) oid tnI st = Except.ok (true, st) :=
    object_is_type_run st fuel oid tnI o cid cobj false ho hcls hcobj hwalkI (fun _ => hifI)
  have hT : object_is_type (fuel+1) oid tnT st = Except.ok (true, st) :=
    object_is_type_run st fuel oid tnT o cid cobj true ho hcls hcobj hwalkT
      (fun h => Bool.noConfusion h)
  constructor
  · show object_dynamic_cast (fuel+1+1) oid tnI st = Except.ok (some oid, st)
    rw [object_dynamic_cast_succ]
    simp only [object_dynamic_cast_body, bind_def]
    rw [mbind_ok (show (engineFns (fuel+1)).object_is_type oid tnI st = Except.ok (true, st) from hI)]
    rfl
  · show object_dynamic_cast (fuel+1+1) oid tnT st = Except.ok (some oid, st)
    rw [object_dynamic_cast_succ]
    simp only [object_dynamic_cast_body, bind_def]
    rw [mbind_ok (show (engineFns (fuel+1)).object_is_type oid tnT st = Except.ok (true, st) from hT)]
    rfl

/-- Witness for C4 at the concrete scenario: the instance 0 of "T" with
trampoline 1 for "I" casts to both "I" and "T" as itself. -/
theorem c4_dynamic_cast_instance_preferred_witness :
    object_dynamic_cast 32 0 "I" ifaceState = Except.ok (some 0, ifaceState) ∧
    object_dynamic_cast 32 0 "T" ifaceState = Except.ok (some 0, ifaceState) :=
  c4_dynamic_cast_instance_preferred ifaceState 30 0 "I" "T"
    { cls := some 0, interfaces := [1], ifaceObj := none } 0 { typeName := "T", tail := [0] }
    (by decide) (by decide) (by decide) (by decide) (by decide) (by decide)

/-- C2 amended: with the ancestor classes already built, the first class
build of Leaf invokes base_init only for the strict ancestors — Root's hook
then Mid's hook, each skipped where absent, each receiving Leaf's class
object (id 2) — and never Leaf's own base_init `b3`; afterwards interface
types are synthesized, and then only Leaf's own class_init runs, with
(Leaf's class, Leaf's class_data). -/
theorem c2_base_init_strict_ancestors (b1 b2 b3 cL : Option Nat) (d : Nat) :
    c2_family b1 b2 b3 cL d =
      some (optEvent (fun h => Event.base_init h 2) b1 ++
            optEvent (fun h => Event.base_init h 2) b2 ++
            [Event.iface_synth "Leaf" "I" (anonName 0)] ++
            optEvent (fun h => Event.class_init h 2 d) cL) := by
  cases b1 <;> cases b2 <;> cases b3 <;> cases cL <;> rfl

/-- Running `mget`. -/
theorem mget_run (st : QState) : mget st = Except.ok (st, st) := rfl

/-- Running `type_table_lookup`: a pure read. -/
theorem ttl_run (p : TName) (st : QState) :
    type_table_lookup p st = Except.ok (alookup st.table p, st) := rfl

/-- `type_class_get_size` at positive fuel runs its body. -/
theorem type_class_get_size_succ (fuel : Nat) (ti : TypeImpl) :
    type_class_get_size (fuel+1) ti = type_class_get_size_body (engineFns fuel) ti := rfl

/-- Helper (C3 size resolution): a successful `type_class_get_size` is a
pure read whose result is exactly the spec's ancestor walk. -/
theorem tcgs_refines (fuel : Nat) :
    ∀ (st : QState) (ti : TypeImpl) (n : Nat) (st2 : QState),
      type_class_get_size fuel ti st = Except.ok (n, st2) →
      st2 = st ∧ spec_resolved_class_size (fuel+1) st ti = some n := by
  induction fuel with
  | zero =>
      intro st ti n st2 h
      exact absurd h (by simp [type_class_get_size, engineFns, engineBase, mthrow])
  | succ f ih =>
      intro st ti n st2 h
      rw [type_class_get_size_succ] at h
      unfold type_class_get_size_body at h
      by_cases hcs : ti.class_size ≠ 0
      · rw [if_pos hcs] at h
        simp only [mpure] at h
        obtain ⟨hn, hst⟩ : ti.class_size = n ∧ st = st2 := by
          have := h
          simp at this
          exact ⟨this.1, this.2⟩
        subst hn
        subst hst
        refine ⟨rfl, ?_⟩
        unfold spec_resolved_class_size
        rw [if_pos hcs]
      · rw [if_neg hcs] at h
        cases hp : ti.parent with
        | none =>
            rw [hp] at h
            simp only [mpure] at h
            have h2 : sizeofObjectClass = n ∧ st = st2 := by
              have := h
              simp at this
              exact ⟨this.1, this.2⟩
            obtain ⟨hn, hst⟩ := h2
            subst hn
            subst hst
            refine ⟨rfl, ?_⟩
            unfold spec_resolved_class_size
            rw [if_neg hcs, hp]
        | some p =>
            simp only [hp, bind_def] at h
            rw [mbind_ok (ttl_run p st)] at h
            cases halo : alookup st.table p with
            | none =>
                rw [halo] at h
                exact absurd h (by simp [mthrow])
            | some pti =>
                rw [halo] at h
                have hrec : type_class_get_size f pti st = Except.ok (n, st2) := h
                obtain ⟨hst, hspec⟩ := ih st pti n st2 hrec
                refine ⟨hst, ?_⟩
                unfold spec_resolved_class_size
                simp only [if_neg hcs, hp, halo]
                exact hspec

/-- Running `type_register_anonymous`: always succeeds, bumping the counter
and adding the descriptor under the generated name. -/
theorem tra_run (info : TypeInfo) (st : QState) :
    type_register_anonymous info st =
      Except.ok (anonName st.anonCount,
        { st with
          anonCount := st.anonCount + 1
          table := aset st.table (anonName st.anonCount)
            (anonTI info (anonName st.anonCount)) }) := rfl

/-- Helper: a successful `type_class_interface_init` changes only the
table, the counter and the log — never the class objects. -/
theorem tcii_preserves (tn : TName) (i : Nat) (st st2 : QState) (a : Unit)
    (h : type_class_interface_init tn i st = Except.ok (a, st2)) :
    st2.classes = st.classes ∧ st2.classCount = st.classCount := by
  unfold type_class_interface_init at h
  simp only [bind_def] at h
  rw [mbind_ok (mget_run st)] at h
  cases h1 : alookup st.table tn with
  | none =>
      simp only [h1] at h
      exact absurd h (by simp [mthrow])
  | some ti =>
      simp only [h1] at h
      cases h2 : ti.interfaces[i]? with
      | none =>
          simp only [h2] at h
          exact absurd h (by simp [mthrow])
      | some iface =>
          simp only [h2] at h
          rw [mbind_ok (tra_run _ st)] at h
          simp only [bind_def, mbind, mget, mset] at h
          cases h3 : alookup
              (aset st.table (anonName st.anonCount)
                (anonTI { instance_size := sizeofInterface, parent := some iface.parent,
                          class_size := sizeofInterfaceClass, class_init := iface.interface_initfn,
                          abstract := true } (anonName st.anonCount))) tn with
          | none =>
              simp only [h3] at h
              exact absurd h (by simp [mthrow])
          | some ti3 =>
              simp only [h3, mset] at h
              have h5 := congrArg Prod.snd (Except.ok.inj h)
              dsimp only at h5
              subst h5
              exact ⟨rfl, rfl⟩

/-- Helper: a successful `type_class_base_init` walk only appends log
events — the class objects and the table are untouched. -/
theorem tcbi_preserves (fuel : Nat) :
    ∀ (bn : TName) (otn : Option TName) (st st2 : QState) (a : Unit),
      (engineFns fuel).type_class_base_init bn otn st = Except.ok (a, st2) →
      st2.classes = st.classes ∧ st2.classCount = st.classCount := by
  induction fuel with
  | zero =>
      intro bn otn st st2 a h
      exact absurd h (by simp [engineFns, engineBase, mthrow])
  | succ f ih =>
      intro bn otn st st2 a h
      rw [show (engineFns (f+1)).type_class_base_init =
        type_class_base_init_body (engineFns f) from rfl] at h
      cases otn with
      | none =>
          simp only [type_class_base_init_body, mpure] at h
          have h5 := congrArg Prod.snd (Except.ok.inj h)
          dsimp only at h5
          subst h5
          exact ⟨rfl, rfl⟩
      | some tn =>
          simp only [type_class_base_init_body, bind_def] at h
          rw [mbind_ok (ttl_run tn st)] at h
          cases halo : alookup st.table tn with
          | none =>
              simp only [halo] at h
              exact absurd h (by simp [mthrow])
          | some ti =>
              simp only [halo] at h
              obtain ⟨a1, st1, hA, hB⟩ := mbind_ok_inv h
              obtain ⟨e1, e2⟩ := ih bn ti.parent st st1 a1 hA
              cases hb : ti.base_init with
              | none =>
                  simp only [hb, mpure] at hB
                  have h5 := congrArg Prod.snd (Except.ok.inj hB)
                  dsimp only at h5
                  subst h5
                  exact ⟨e1, e2⟩
              | some hk =>
                  simp only [hb, bind_def] at hB
                  rw [mbind_ok (ttl_run bn st1)] at hB
                  cases hbase : alookup st1.table bn with
                  | none =>
                      simp only [hbase] at hB
                      exact absurd hB (by simp [mthrow])
                  | some bti =>
                      simp only [hbase] at hB
                      cases hcl : bti.cls with
                      | none =>
                          simp only [hcl] at hB
                          exact absurd hB (by simp [mthrow])
                      | some c =>
                          simp only [hcl, mbind, mget, mset] at hB
                          have h5 := congrArg Prod.snd (Except.ok.inj hB)
                          dsimp only at h5
                          subst h5
                          exact ⟨e1, e2⟩

/-- Helper: a successful interface-synthesis loop never touches the class
objects. -/
theorem tcil_preserves (fuel : Nat) :
    ∀ (tn : TName) (l : List Nat) (st st2 : QState) (a : Unit),
      (engineFns fuel).type_class_interface_loop tn l st = Except.ok (a, st2) →
      st2.classes = st.classes ∧ st2.classCount = st.classCount := by
  induction fuel with
  | zero =>
      intro tn l st st2 a h
      exact absurd h (by simp [engineFns, engineBase, mthrow])
  | succ f ih =>
      intro tn l st st2 a h
      rw [show (engineFns (f+1)).type_class_interface_loop =
        type_class_interface_loop_body (engineFns f) from rfl] at h
      cases l with
      | nil =>
          simp only [type_class_interface_loop_body, mpure] at h
          have h5 := congrArg Prod.snd (Except.ok.inj h)
          dsimp only at h5
          subst h5
          exact ⟨rfl, rfl⟩
      | cons i rest =>
          simp only [type_class_interface_loop_body, bind_def] at h
          obtain ⟨a1, st1, hA, hB⟩ := mbind_ok_inv h
          obtain ⟨e1, e2⟩ := tcii_preserves tn i st st1 a1 hA
          obtain ⟨f1, f2⟩ := ih tn rest st1 st2 a hB
          exact ⟨f1.trans e1, f2.trans e2⟩

/-- Running `mset`. -/
theorem mset_run (s st : QState) : mset s st = Except.ok ((), s) := rfl

/-- Helper (C3 inherited copy): building T's class when its parent P's class
is already built copies P's vtable tail into the same offsets of T's fresh
class object and leaves the remainder zero. The fresh class object sits at
id `st.classCount`; whatever the `base_init` walk, the interface synthesis
loop and the `class_init` call do afterwards, they never touch class
objects, so the built class's memory in the final state is exactly
`P-tail ++ zeros`. -/
theorem tci_copy (fuel : Nat) (st st2 : QState) (tn pn : TName)
    (ti pti : TypeImpl) (pcid : Nat) (pcobj : ClassObj) (csz : Nat)
    (h1 : alookup st.table tn = some ti)
    (h2 : ti.cls = none)
    (h3 : ti.parent = some pn)
    (h4 : tn ≠ pn)
    (h5 : alookup st.table pn = some pti)
    (h6 : pti.cls = some pcid)
    (h7 : alookup st.classes pcid = some pcobj)
    (h8 : pcobj.tail.length = pti.class_size - sizeofObjectClass)
    (h9 : sizeofObjectClass ≤ pti.class_size)
    (h10 : pti.class_size ≤ csz)
    (h11 : pcid ≠ st.classCount)
    (h12 : type_class_get_size (fuel+1) ti st = Except.ok (csz, st))
    (hrun : type_class_init (fuel+2) tn st = Except.ok ((), st2)) :
    alookup st2.classes st.classCount =
      some { typeName := tn,
             tail := pcobj.tail ++ List.replicate (csz - pti.class_size) 0 } ∧
    (pcobj.tail ++ List.replicate (csz - pti.class_size) 0).take
        (pti.class_size - sizeofObjectClass) = pcobj.tail ∧
    (pcobj.tail ++ List.replicate (csz - pti.class_size) 0).drop
        (pti.class_size - sizeofObjectClass) = List.replicate (csz - pti.class_size) 0 := by
  have htake : (pcobj.tail ++ List.replicate (csz - pti.class_size) 0).take
      (pti.class_size - sizeofObjectClass) = pcobj.tail := by
    rw [← h8]
    exact List.take_left pcobj.tail _
  have hdrop : (pcobj.tail ++ List.replicate (csz - pti.class_size) 0).drop
      (pti.class_size - sizeofObjectClass) = List.replicate (csz - pti.class_size) 0 := by
    rw [← h8]
    exact List.drop_left pcobj.tail _
  refine ⟨?_, htake, hdrop⟩
  have hlt : ¬ (csz < pti.class_size) := Nat.not_lt.mpr h10
  have h12p : (engineFns (fuel+1)).type_class_get_size ti st = Except.ok (csz, st) := h12
  have hpn : alookup (aset st.table tn
      { ti with class_size := csz, parent := some pn, cls := some st.classCount }) pn
      = some pti := by
    rw [alookup_aset_ne _ _ _ _ h4]
    exact h5
  have hnoop : (engineFns (fuel+1)).type_class_init pn
      { st with
        classCount := st.classCount + 1
        classes := aset st.classes st.classCount
          { typeName := tn, tail := List.replicate (csz - sizeofObjectClass) 0 }
        table := aset st.table tn
          { ti with class_size := csz, parent := some pn, cls := some st.classCount } }
      = Except.ok ((),
        { st with
          classCount := st.classCount + 1
          classes := aset st.classes st.classCount
            { typeName := tn, tail := List.replicate (csz - sizeofObjectClass) 0 }
          table := aset st.table tn
            { ti with class_size := csz, parent := some pn, cls := some st.classCount } }) :=
    tci_built_noop _ pn pti pcid fuel hpn h6
  have hpc : alookup (aset st.classes st.classCount
      { typeName := tn, tail := List.replicate (csz - sizeofObjectClass) 0 }) pcid
      = some pcobj := by
    rw [alookup_aset_ne _ _ _ _ (Ne.symm h11)]
    exact h7
  have hself : alookup (aset st.classes st.classCount
      { typeName := tn, tail := List.replicate (csz - sizeofObjectClass) 0 }) st.classCount
      = some { typeName := tn, tail := List.replicate (csz - sizeofObjectClass) 0 } :=
    alookup_aset_self _ _ _
  rw [show type_class_init (fuel+1+1) tn = type_class_init_body (engineFns (fuel+1)) tn from rfl] at hrun
  simp only [type_class_init_body, bind_def, mbind, mget, mset, mpure, h1, h2, h3,
    h12p, hnoop, hpn, if_neg hlt, h6, hpc, hself, alookup_aset_self] at hrun
  split at hrun
  · exact absurd hrun (by simp)
  · rename_i a1 stD hW
    split at hrun
    · exact absurd hrun (by simp)
    · rename_i a2 stE hL
      have hDC := tcbi_preserves (fuel+1) tn (some pn) _ stD a1 hW
      have hEC := tcil_preserves (fuel+1) tn (List.range ti.interfaces.length) stD stE a2 hL
      have hst2 : st2.classes = stE.classes := by
        cases hci : ti.class_init with
        | none =>
            simp only [hci, mpure] at hrun
            have hx := congrArg Prod.snd (Except.ok.inj hrun)
            dsimp only at hx
            subst hx
            rfl
        | some hk =>
            simp only [hci, bind_def, mbind, mget, mset] at hrun
            have hx := congrArg Prod.snd (Except.ok.inj hrun)
            dsimp only at hx
            subst hx
            rfl
      rw [hst2, hEC.1, hDC.1]
      rw [alookup_aset_self]
      have e_take : List.take (pti.class_size - sizeofObjectClass) pcobj.tail = pcobj.tail := by
        rw [← h8]
        exact List.take_length _
      have e_drop : List.drop (pti.class_size - sizeofObjectClass)
          (List.replicate (csz - sizeofObjectClass) 0) =
          List.replicate (csz - pti.class_size) 0 := by
        rw [List.drop_replicate]
        congr 1
        omega
      rw [e_take, e_drop, htake]
      have e_len : (pcobj.tail ++ List.replicate (csz - pti.class_size) 0).length -
          (pti.class_size - sizeofObjectClass) = csz - pti.class_size := by
        simp only [List.length_append, List.length_replicate, h8]
        omega
      rw [e_len]

/-- Helper (C3 assert): when the parent's resolved class_size exceeds the
child's, `type_class_init` aborts with the `g_assert` failure. -/
theorem tci_assert (fuel : Nat) (st : QState) (tn pn : TName)
    (ti pti : TypeImpl) (pcid csz : Nat)
    (h1 : alookup st.table tn = some ti)
    (h2 : ti.cls = none)
    (h3 : ti.parent = some pn)
    (h4 : tn ≠ pn)
    (h5 : alookup st.table pn = some pti)
    (h6 : pti.cls = some pcid)
    (hlt : csz < pti.class_size)
    (h12 : type_class_get_size (fuel+1) ti st = Except.ok (csz, st)) :
    type_class_init (fuel+2) tn st =
      Except.error "g_assert failed: ti_parent->class_size <= ti->class_size" := by
  have h12p : (engineFns (fuel+1)).type_class_get_size ti st = Except.ok (csz, st) := h12
  have hpn : alookup (aset st.table tn
      { ti with class_size := csz, parent := some pn, cls := some st.classCount }) pn
      = some pti := by
    rw [alookup_aset_ne _ _ _ _ h4]
    exact h5
  have hnoop : (engineFns (fuel+1)).type_class_init pn
      { st with
        classCount := st.classCount + 1
        classes := aset st.classes st.classCount
          { typeName := tn, tail := List.replicate (csz - sizeofObjectClass) 0 }
        table := aset st.table tn
          { ti with class_size := csz, parent := some pn, cls := some st.classCount } }
      = Except.ok ((),
        { st with
          classCount := st.classCount + 1
          classes := aset st.classes st.classCount
            { typeName := tn, tail := List.replicate (csz - sizeofObjectClass) 0 }
          table := aset st.table tn
            { ti with class_size := csz, parent := some pn, cls := some st.classCount } }) :=
    tci_built_noop _ pn pti pcid fuel hpn h6
  rw [show type_class_init (fuel+1+1) tn = type_class_init_body (engineFns (fuel+1)) tn from rfl]
  simp only [type_class_init_body, bind_def, mbind, mget, mset, mpure, mthrow, h1, h2, h3,
    h12p, hnoop, hpn, if_pos hlt]

/-- C3: the class builder's layout contract.
1. Size resolution: a successful `type_class_get_size` is a pure read whose
   value is the spec's walk (ancestors until a non-zero `class_size`, else
   the universal class-header size) — `spec_resolved_class_size`.
2. Inherited copy: building T whose parent P is already built allocates T's
   class at the next id, copies the bytes `[sizeof(ObjectClass),
   P.class_size)` of P's class tail to the same offsets and leaves
   `[P.class_size, T.class_size)` zero, whatever the subsequent `base_init`
   walk, interface synthesis and `class_init` do.
3. Assert: when P's class_size exceeds T's resolved class_size the build is
   fatal with the `g_assert` message.
4. Ensure-parent: a from-scratch build of Leaf recursively built Mid's and
   Root's classes (`c3_parent_built`). -/
theorem c3_class_layout :
    (∀ (fuel : Nat) (st : QState) (ti : TypeImpl) (n : Nat) (st2 : QState),
        type_class_get_size fuel ti st = Except.ok (n, st2) →
        st2 = st ∧ spec_resolved_class_size (fuel+1) st ti = some n) ∧
    (∀ (fuel : Nat) (st st2 : QState) (tn pn : TName) (ti pti : TypeImpl)
        (pcid : Nat) (pcobj : ClassObj) (csz : Nat),
        alookup st.table tn = some ti → ti.cls = none → ti.parent = some pn →
        tn ≠ pn → alookup st.table pn = some pti → pti.cls = some pcid →
        alookup st.classes pcid = some pcobj →
        pcobj.tail.length = pti.class_size - sizeofObjectClass →
        sizeofObjectClass ≤ pti.class_size → pti.class_size ≤ csz →
        pcid ≠ st.classCount →
        type_class_get_size (fuel+1) ti st = Except.ok (csz, st) →
        type_class_init (fuel+2) tn st = Except.ok ((), st2) →
        alookup st2.classes st.classCount =
          some { typeName := tn,
                 tail := pcobj.tail ++ List.replicate (csz - pti.class_size) 0 } ∧
        (pcobj.tail ++ List.replicate (csz - pti.class_size) 0).take
            (pti.class_size - sizeofObjectClass) = pcobj.tail ∧
        (pcobj.tail ++ List.replicate (csz - pti.class_size) 0).drop
            (pti.class_size - sizeofObjectClass) =
          List.replicate (csz - pti.class_size) 0) ∧
    (∀ (fuel : Nat) (st : QState) (tn pn : TName) (ti pti : TypeImpl) (pcid csz : Nat),
        alookup st.table tn = some ti → ti.cls = none → ti.parent = some pn →
        tn ≠ pn → alookup st.table pn = some pti → pti.cls = some pcid →
        csz < pti.class_size →
        type_class_get_size (fuel+1) ti st = Except.ok (csz, st) →
        type_class_init (fuel+2) tn st =
          Except.error "g_assert failed: ti_parent->class_size <= ti->class_size") ∧
    c3_parent_built = true :=
  ⟨tcgs_refines, tci_copy, tci_assert, by decide⟩

/-- Witness for C3: in the concrete two-type registry `c3w_state` (parent
"P" built with tail [5, 7], class sizes 3 and 6) the size resolution gives
6, the build of "T" copies [5, 7] and zero-fills to [5, 7, 0, 0, 0], and
the undersized variant aborts on the assert. -/
theorem c3_class_layout_witness :
    (c3w_state = c3w_state ∧
      spec_resolved_class_size 6 c3w_state c3wTI_T = some 6) ∧
    (alookup c3w_result.classes 1 =
        some { typeName := "T", tail := [5, 7, 0, 0, 0] } ∧
      ([5, 7, 0, 0, 0] : List Nat).take 2 = [5, 7] ∧
      ([5, 7, 0, 0, 0] : List Nat).drop 2 = [0, 0, 0]) ∧
    type_class_init 10 "T" c3w_state2 =
      Except.error "g_assert failed: ti_parent->class_size <= ti->class_size" :=
  ⟨c3_class_layout.1 5 c3w_state c3wTI_T 6 c3w_state (by decide),
   c3_class_layout.2.1 8 c3w_state c3w_result "T" "P" c3wTI_T c3wTI_P 0
     { typeName := "P", tail := [5, 7] } 6
     (by decide) (by decide) (by decide) (by decide) (by decide) (by decide)
     (by decide) (by decide) (by decide) (by decide) (by decide) (by decide)
     (by decide),
   c3_class_layout.2.2.1 8 c3w_state2 "T" "P" c3wTI_T2 c3wTI_P 0 2
     (by decide) (by decide) (by decide) (by decide) (by decide) (by decide)
     (by decide) (by decide)⟩
